import Mathlib

/-!
Shallow embedding of the PlaylistPilot command-line program
(src/main.rs, src/models.rs) and proofs about its behaviour.

Rust strings are modelled as `List Char`; machine HTTP interaction is
modelled by an explicit outcome type (`SendResult`) recording either a
transport failure or a status code together with the attempted JSON
decode of the body (the decode is performed by the external serde
library, so it appears as data, not as repository code).
-/

/-- The backtick character (U+0060), written via its code point. -/
def tick : Char := Char.ofNat 96

/-- The apostrophe character (U+0027), written via its code point. -/
def apos : Char := Char.ofNat 39

/-- Rust `char::is_whitespace`: the Unicode White_Space code points,
used by `str::trim` in `parse_llm_response`. -/
def isWhite (c : Char) : Bool :=
  let n := c.toNat
  n == 9 || n == 10 || n == 11 || n == 12 || n == 13 || n == 32 ||
  n == 133 || n == 160 || n == 5760 ||
  n == 8192 || n == 8193 || n == 8194 || n == 8195 || n == 8196 ||
  n == 8197 || n == 8198 || n == 8199 || n == 8200 || n == 8201 ||
  n == 8202 || n == 8232 || n == 8233 || n == 8239 || n == 8287 ||
  n == 12288

/-- Remove from both ends of `s` the longest runs of characters
satisfying `p`.  This is the common semantics of Rust
`str::trim` (with `p = char::is_whitespace`) and
`str::trim_matches c` (with `p = (· == c)`). -/
def dropEnds (p : Char → Bool) (s : List Char) : List Char :=
  ((s.dropWhile p).reverse.dropWhile p).reverse

/-- Rust `str::trim` as used in `parse_llm_response`. -/
def rustTrim (s : List Char) : List Char := dropEnds isWhite s

/-- Rust `str::trim_matches('\x60')` as used in `parse_llm_response`:
removes ALL leading and trailing backticks. -/
def trimMatchesTick (s : List Char) : List Char := dropEnds (fun c => c == tick) s

/-- The cleaning performed by `parse_llm_response` in src/main.rs:
`response.trim().trim_matches('\x60')`. -/
def clean (s : List Char) : List Char := trimMatchesTick (rustTrim s)

/-- src/main.rs `parse_llm_response`: returns the cleaned string,
always `Ok`. -/
def parse_llm_response (response : List Char) : Except (List Char) (List Char) :=
  .ok (clean response)

/-- Modelled from the spec's words (for comparison with the code):
"trims a single leading and trailing backtick character if present".
Removes AT MOST ONE leading and at most one trailing backtick after
whitespace trimming. -/
def dropOneTickLead (s : List Char) : List Char :=
  match s with
  | [] => []
  | c :: rest => if c == tick then rest else c :: rest

/-- Modelled from the spec's words: at most one backtick stripped from
each end, after whitespace trimming. -/
def cleanClaimed (s : List Char) : List Char :=
  ((dropOneTickLead ((dropOneTickLead (rustTrim s)).reverse)).reverse)

/-! ## Data model (src/models.rs) -/

/-- src/models.rs `Artist`. -/
structure Artist where
  name : List Char
deriving Repr

/-- src/models.rs `Track`: note `uri` is a plain `String` field, not an
`Option`, so serde requires it to be present. -/
structure Track where
  name : List Char
  artists : List Artist
  uri : List Char
deriving Repr

/-- src/models.rs `TrackItem`. -/
structure TrackItem where
  track : Track
deriving Repr

/-- src/models.rs `PlaylistTracks`. -/
structure PlaylistTracks where
  items : List TrackItem
deriving Repr

/-- src/models.rs `PlaylistResponse`. -/
structure PlaylistResponse where
  tracks : PlaylistTracks
deriving Repr

/-- src/models.rs `SearchTracks`. -/
structure SearchTracks where
  items : List Track
deriving Repr

/-- src/models.rs `SearchResponse`. -/
structure SearchResponse where
  tracks : SearchTracks
deriving Repr

/-- src/models.rs `MessageResponse`. -/
structure MessageResponse where
  content : List Char
deriving Repr

/-- src/models.rs `Choice`. -/
structure Choice where
  message : MessageResponse
deriving Repr

/-- src/models.rs `LlmResponse`. -/
structure LlmResponse where
  choices : List Choice
deriving Repr

/-- src/models.rs `Song`. -/
structure Song where
  name : List Char
  artist : List Char
deriving Repr, DecidableEq

/-- src/models.rs `LlmSongsResponse`. -/
structure LlmSongsResponse where
  songs : List Song
deriving Repr

/-! ## Playlist rendering (the for-loop in `main`, src/main.rs lines 216-228) -/

/-- The `" by "` separator written by `main`'s formatting loop. -/
def bySep : List Char := (" by ").data

/-- The `", "` separator used both between artist names and after each
rendered item. -/
def commaSep : List Char := (", ").data

/-- Text contributed to `output` by one playlist item:
`format!("{} by {}, ", track.name, artist_names.join(", "))`. -/
def renderItem (t : Track) : List Char :=
  t.name ++ bySep ++ (List.intercalate commaSep (t.artists.map Artist.name)) ++ commaSep

/-- The playlist listing built by `main`'s for-loop over
`playlist_response.tracks.items` (a fold of `push_str` starting from the
empty string). -/
def render_playlist_text (p : PlaylistResponse) : List Char :=
  p.tracks.items.foldl (fun acc it => acc ++ renderItem it.track) []

/-- Number of positions of `s` at which the pattern `pat` occurs as a
contiguous substring. -/
def countOcc (pat : List Char) : List Char → Nat
  | [] => 0
  | c :: rest => (if pat.isPrefixOf (c :: rest) then 1 else 0) + countOcc pat rest

/-! ## HTTP call outcomes

Each `client...send()` either fails in transport (`err`) or yields a
response with a status code; `resp.json::<A>()` is the serde decode of
the body, performed by the external serde library, so it is modelled as
data carried alongside the status. -/

/-- Outcome of one blocking HTTP round-trip whose body, on demand,
decodes (or fails to decode) as `α`. -/
inductive SendResult (α : Type) where
  | ok (status : Nat) (body : Except (List Char) α)
  | err (e : List Char)

/-- `format!("{}", status)` for a reqwest status code: the error strings
built from a status carry its decimal representation. -/
def statusMsg (status : Nat) : List Char := (Nat.repr status).data

/-- reqwest `StatusCode::is_success`: 2xx. -/
def isSuccess (status : Nat) : Bool := 200 ≤ status && status ≤ 299

/-- Error string of `get_playlist` for HTTP 404. -/
def invalidPlaylistMsg : List Char :=
  ("Invalid Playlist ID: The playlist could not be found.").data

/-- Error string of `get_playlist` for any other non-200 status. -/
def fetchErrMsg (status : Nat) : List Char :=
  ("Error fetching playlist: ").data ++ statusMsg status

/-- src/main.rs `get_playlist` (lines 59-82), as a function of the HTTP
outcome: 200 decodes the body, 404 is the invalid-playlist error, any
other status is an error carrying the status, and a transport error is
passed through as its message. -/
def get_playlist (resp : SendResult PlaylistResponse) :
    Except (List Char) PlaylistResponse :=
  match resp with
  | .ok status body =>
    if status == 200 then
      match body with
      | .ok p => .ok p
      | .error e => .error e
    else if status == 404 then .error invalidPlaylistMsg
    else .error (fetchErrMsg status)
  | .err e => .error e

/-- Error string of `ask_llm` when the body does not decode. -/
def llmDecodeErrMsg (e : List Char) : List Char :=
  ("Failed to parse response: ").data ++ e

/-- Error string of `ask_llm` when `choices` is empty. -/
def noChoicesMsg : List Char := ("No response choices available").data

/-- src/main.rs `ask_llm` (lines 85-118), as a function of the HTTP
outcome: on a 2xx status the body is decoded (decode failure is
reported with its message); `choices.get(0)` yields the first choice's
`message.content`, an empty `choices` list is the no-choices error; a
non-success status is an error carrying the status. -/
def ask_llm (resp : SendResult LlmResponse) : Except (List Char) (List Char) :=
  match resp with
  | .err e => .error e
  | .ok status body =>
    if isSuccess status then
      match body with
      | .error e => .error (llmDecodeErrMsg e)
      | .ok r =>
        match r.choices with
        | [] => .error noChoicesMsg
        | c :: _ => .ok c.message.content
    else .error (statusMsg status)

/-- Error string of `search_song` for HTTP 200 with zero items. -/
def noResultMsg : List Char :=
  ("No result found for the specified artist and track.").data

/-- Error string of `search_song` for HTTP 404. -/
def noResultsMsg : List Char :=
  ("No results found for the specified artist and track.").data

/-- The two no-match error strings of `search_song` (HTTP 200 with zero
items, and HTTP 404): the abstract `NoMatchError` class. -/
def isNoMatchMsg (e : List Char) : Bool := e == noResultMsg || e == noResultsMsg

/-- src/main.rs `search_song` (lines 121-151), as a function of the HTTP
outcome: 200 decodes the body and returns the first item's `uri`
(`items.get(0)`), or the zero-result no-match error; 404 is the other
no-match error; any other status is an error carrying the status. -/
def search_song (resp : SendResult SearchResponse) :
    Except (List Char) (List Char) :=
  match resp with
  | .ok status body =>
    if status == 200 then
      match body with
      | .ok sr =>
        match sr.tracks.items with
        | [] => .error noResultMsg
        | t :: _ => .ok t.uri
      | .error e => .error e
    else if status == 404 then .error noResultsMsg
    else .error (statusMsg status)
  | .err e => .error e

/-! ## The main workflow (src/main.rs `main`, after authentication) -/

/-- First (literal) part of the LLM prompt, up to `{number}`. -/
def promptA : List Char := ("I will give you a playlist, give me ").data

/-- Second (literal) part of the LLM prompt, between `{number}` and
`{output}`; the single-quoted words are built with the apostrophe
code point. -/
def promptB : List Char :=
  (" songs that are similar to the songs in the playlist, no songs that you give me should be the same as the songs in the playlist. Your goal is to give me songs that fit the vibe of the playlist. You are only allowed to give me the songs nothing more. The format of your answer will be a JSON object with the key ").data
  ++ [apos] ++ ("songs").data ++ [apos]
  ++ (" and the value being a list of song objects. Each song object should have the keys ").data
  ++ [apos] ++ ("name").data ++ [apos] ++ (" and ").data
  ++ [apos] ++ ("artist").data ++ [apos]
  ++ (". Here is the playlist: ").data

/-- The prompt `format!` in `main` (lines 231-236): embeds the requested
count and the rendered playlist listing verbatim. -/
def mkPrompt (number : Int) (output : List Char) : List Char :=
  promptA ++ (Int.repr number).data ++ promptB ++ output

/-- The per-suggestion failure line
`println!("Error finding song '{} - {}': {}", song.name, song.artist, e)`. -/
def searchErrLine (s : Song) (e : List Char) : List Char :=
  ("Error finding song ").data ++ [apos] ++ s.name ++ (" - ").data ++ s.artist
  ++ [apos] ++ (": ").data ++ e

/-- Environment of one run of `main` after authentication: the outcomes
of each external interaction.  `decodeSongs` models
`serde_json::from_str::<LlmSongsResponse>` (external serde code) on the
cleaned LLM text; `searchResp` gives the search HTTP outcome for each
suggested song; `number` is the operator-entered count. -/
structure World where
  number : Int
  playlistResp : SendResult PlaylistResponse
  llmResp : SendResult LlmResponse
  decodeSongs : List Char → Except (List Char) LlmSongsResponse
  searchResp : Song → SendResult SearchResponse

/-- Observable result of one run of `main` (after authentication):
the rendered listing, the prompt sent to the LLM, the error lines
printed, the URI list accumulated by the resolution loop, whether
`add_to_playlist` was invoked, and `main`'s return value. -/
structure RunResult where
  output : List Char
  prompt : List Char
  printed : List (List Char)
  urisToAdd : List (List Char)
  addInvoked : Bool
  result : Except (List Char) Unit

/-- The per-suggestion resolution loop of `main` (lines 245-250):
returns the accumulated URIs and the printed error lines, both in
suggestion order. -/
def resolveLoop (w : World) : List Song → List (List Char) × List (List Char)
  | [] => ([], [])
  | s :: rest =>
    match search_song (w.searchResp s) with
    | .ok uri =>
      let r := resolveLoop w rest
      (uri :: r.1, r.2)
    | .error e =>
      let r := resolveLoop w rest
      (r.1, searchErrLine s e :: r.2)

/-- The playlist listing built by `main` (lines 216-228): rendered on a
successful fetch, left as the empty string on a fetch failure. -/
def playlistOutput (w : World) : List Char :=
  match get_playlist w.playlistResp with
  | .ok p => render_playlist_text p
  | .error _ => []

/-- The error line printed by `main` when the playlist fetch fails
(lines 225-227); empty when the fetch succeeds. -/
def playlistPrinted (w : World) : List (List Char) :=
  match get_playlist w.playlistResp with
  | .ok _ => []
  | .error e => [e]

/-- src/main.rs `main` (lines 215-265), from the playlist fetch to the
batch-add decision.  The playlist fetch failure is printed and leaves
`output` empty; the LLM failure and the (unreachable) clean failure are
printed; a `decodeSongs` failure propagates out of `main` through `?`;
otherwise the resolution loop runs and `add_to_playlist` is invoked
exactly when the URI list is non-empty. -/
def runMain (w : World) : RunResult :=
  match ask_llm w.llmResp with
  | .error e =>
    ⟨playlistOutput w, mkPrompt w.number (playlistOutput w),
     playlistPrinted w ++ [e], [], false, .ok ()⟩
  | .ok response =>
    match parse_llm_response response with
    | .error e =>
      ⟨playlistOutput w, mkPrompt w.number (playlistOutput w),
       playlistPrinted w ++ [e], [], false, .ok ()⟩
    | .ok cleaned =>
      match w.decodeSongs cleaned with
      | .error m =>
        ⟨playlistOutput w, mkPrompt w.number (playlistOutput w),
         playlistPrinted w, [], false, .error m⟩
      | .ok songsResp =>
        ⟨playlistOutput w, mkPrompt w.number (playlistOutput w),
         playlistPrinted w ++ (resolveLoop w songsResp.songs).2,
         (resolveLoop w songsResp.songs).1,
         !(resolveLoop w songsResp.songs).1.isEmpty, .ok ()⟩

/-! ## serde decoding of playlist JSON (src/models.rs derives)

`#[derive(Deserialize)]` on `Track` makes every declared field
mandatory: `uri` is a plain `String`, so a track object without a
`uri` key is a decode error (serde's "missing field" error).  The JSON
surface is modelled explicitly so this can be stated. -/

/-- A JSON value. -/
inductive Json where
  | null
  | bool (b : Bool)
  | num (n : Int)
  | str (s : List Char)
  | arr (elems : List Json)
  | obj (fields : List ((List Char) × Json))

/-- First binding of key `k` in a JSON object's field list. -/
def getField (fields : List ((List Char) × Json)) (k : List Char) : Option Json :=
  match fields with
  | [] => none
  | (k2, v) :: rest => if k2 = k then some v else getField rest k

/-- serde's error for a JSON value of the wrong shape (the exact
message text is not relied upon). -/
def typeErrMsg : List Char := ("invalid type").data

/-- serde's "missing field" error message for field `f`. -/
def missingFieldMsg (f : List Char) : List Char :=
  ("missing field ").data ++ [tick] ++ f ++ [tick]

/-- Decode a JSON value as a string. -/
def asString (j : Json) : Except (List Char) (List Char) :=
  match j with
  | .str s => .ok s
  | _ => .error typeErrMsg

/-- Decode a JSON value as an array's element list. -/
def asArr (j : Json) : Except (List Char) (List Json) :=
  match j with
  | .arr elems => .ok elems
  | _ => .error typeErrMsg

/-- Look up the mandatory field `k` ("missing field" error if absent)
and decode it as a string. -/
def fieldString (fields : List ((List Char) × Json)) (k : List Char) :
    Except (List Char) (List Char) :=
  match getField fields k with
  | some v => asString v
  | none => .error (missingFieldMsg k)

/-- Decode each element of a list with `d`, failing on the first
element that fails. -/
def decodeListWith (d : Json → Except (List Char) α) :
    List Json → Except (List Char) (List α)
  | [] => .ok []
  | j :: rest =>
    match d j with
    | .error e => .error e
    | .ok x =>
      match decodeListWith d rest with
      | .error e => .error e
      | .ok xs => .ok (x :: xs)

/-- serde decode of `Artist` (one mandatory string field `name`). -/
def decodeArtist (j : Json) : Except (List Char) Artist :=
  match j with
  | .obj fs =>
    match fieldString fs (("name").data) with
    | .error e => .error e
    | .ok n => .ok ⟨n⟩
  | _ => .error typeErrMsg

/-- serde decode of `Track`: the three declared fields `name`,
`artists` and `uri` are all mandatory. -/
def decodeTrack (j : Json) : Except (List Char) Track :=
  match j with
  | .obj fs =>
    match fieldString fs (("name").data) with
    | .error e => .error e
    | .ok name =>
      match getField fs (("artists").data) with
      | none => .error (missingFieldMsg (("artists").data))
      | some v =>
        match asArr v with
        | .error e => .error e
        | .ok elems =>
          match decodeListWith decodeArtist elems with
          | .error e => .error e
          | .ok artists =>
            match fieldString fs (("uri").data) with
            | .error e => .error e
            | .ok uri => .ok ⟨name, artists, uri⟩
  | _ => .error typeErrMsg

/-- serde decode of `TrackItem` (mandatory field `track`). -/
def decodeTrackItem (j : Json) : Except (List Char) TrackItem :=
  match j with
  | .obj fs =>
    match getField fs (("track").data) with
    | none => .error (missingFieldMsg (("track").data))
    | some v =>
      match decodeTrack v with
      | .error e => .error e
      | .ok t => .ok ⟨t⟩
  | _ => .error typeErrMsg

/-- serde decode of `PlaylistTracks` (mandatory field `items`). -/
def decodePlaylistTracks (j : Json) : Except (List Char) PlaylistTracks :=
  match j with
  | .obj fs =>
    match getField fs (("items").data) with
    | none => .error (missingFieldMsg (("items").data))
    | some v =>
      match asArr v with
      | .error e => .error e
      | .ok elems =>
        match decodeListWith decodeTrackItem elems with
        | .error e => .error e
        | .ok items => .ok ⟨items⟩
  | _ => .error typeErrMsg

/-- serde decode of `PlaylistResponse` (mandatory field `tracks`), as
performed by `resp.json::<PlaylistResponse>()` in `get_playlist`. -/
def decodePlaylistResponse (j : Json) : Except (List Char) PlaylistResponse :=
  match j with
  | .obj fs =>
    match getField fs (("tracks").data) with
    | none => .error (missingFieldMsg (("tracks").data))
    | some v =>
      match decodePlaylistTracks v with
      | .error e => .error e
      | .ok t => .ok ⟨t⟩
  | _ => .error typeErrMsg

/-- A playlist JSON body whose single track item carries `name` and
`artists` but no `uri` key. -/
def playlistNoUriJson : Json :=
  .obj [((("tracks").data),
    .obj [((("items").data),
      .arr [.obj [((("track").data),
        .obj [((("name").data), .str (("Song1").data)),
              ((("artists").data), .arr [.obj [((("name").data), .str (("ArtistA").data))]])])]])])]

/-! ## Lemmas about end-trimming -/

theorem head_dropWhile_false (p : Char → Bool) :
    ∀ (l : List Char) (c : Char), (l.dropWhile p).head? = some c → p c = false := by
  intro l
  induction l with
  | nil => intro c h; simp [List.dropWhile] at h
  | cons a rest ih =>
    intro c h
    by_cases hpa : p a = true
    · rw [List.dropWhile_cons, if_pos hpa] at h
      exact ih c h
    · rw [List.dropWhile_cons, if_neg hpa] at h
      simp at h
      rw [← h]
      exact eq_false_of_ne_true hpa

theorem dropEnds_decomp (p : Char → Bool) (s : List Char) :
    ∃ a b, s = a ++ dropEnds p s ++ b ∧ (∀ c ∈ a, p c = true) ∧ (∀ c ∈ b, p c = true) := by
  refine ⟨s.takeWhile p, ((s.dropWhile p).reverse.takeWhile p).reverse, ?_, ?_, ?_⟩
  · unfold dropEnds
    conv_lhs => rw [← List.takeWhile_append_dropWhile (p := p) (l := s)]
    have h2 : s.dropWhile p =
        ((s.dropWhile p).reverse.dropWhile p).reverse ++
          ((s.dropWhile p).reverse.takeWhile p).reverse := by
      have h3 : (s.dropWhile p).reverse =
          (s.dropWhile p).reverse.takeWhile p ++ (s.dropWhile p).reverse.dropWhile p :=
        (List.takeWhile_append_dropWhile (p := p) _).symm
      calc s.dropWhile p = (s.dropWhile p).reverse.reverse := (List.reverse_reverse _).symm
        _ = ((s.dropWhile p).reverse.takeWhile p ++ (s.dropWhile p).reverse.dropWhile p).reverse := by
              rw [← h3]
        _ = ((s.dropWhile p).reverse.dropWhile p).reverse ++
              ((s.dropWhile p).reverse.takeWhile p).reverse := by
              rw [List.reverse_append]
    rw [List.append_assoc, ← h2]
  · intro c hc
    exact List.mem_takeWhile_imp hc
  · intro c hc
    rw [List.mem_reverse] at hc
    exact List.mem_takeWhile_imp hc

theorem dropEnds_getLast (p : Char → Bool) (s : List Char) (c : Char)
    (h : (dropEnds p s).getLast? = some c) : p c = false := by
  unfold dropEnds at h
  rw [List.getLast?_reverse] at h
  exact head_dropWhile_false p _ c h

theorem dropEnds_head (p : Char → Bool) (s : List Char) (c : Char)
    (h : (dropEnds p s).head? = some c) : p c = false := by
  unfold dropEnds at h
  rw [List.head?_reverse] at h
  set t := (s.dropWhile p).reverse with ht
  have hsplit : t = t.takeWhile p ++ t.dropWhile p :=
    (List.takeWhile_append_dropWhile (p := p) _).symm
  have hne : t.dropWhile p ≠ [] := by
    intro hnil
    rw [hnil] at h
    simp at h
  have hlast : t.getLast? = some c := by
    rw [hsplit, List.getLast?_append, h]
    rfl
  rw [ht, List.getLast?_reverse] at hlast
  exact head_dropWhile_false p s c hlast

/-- C1: the claim predicts that `parse_llm_response` removes at most one
backtick from each end after whitespace trimming; on the input
`` "``a``" `` the code removes both backticks from each end, while the
claimed behaviour would leave one on each side.  The operation indeed
never fails. -/
theorem c1_counterexample :
    parse_llm_response (("``a``").data) = .ok (("a").data) ∧
    cleanClaimed (("``a``").data) = [tick] ++ ("a").data ++ [tick] ∧
    ("a").data ≠ [tick] ++ ("a").data ++ [tick] := by
  refine ⟨rfl, by decide, by decide⟩

/-- C1 (amended): `parse_llm_response` never fails; it first trims
leading and trailing whitespace (only whitespace is removed, the
trimmed core is kept verbatim) and then removes ALL leading and ALL
trailing backtick characters (not just one per side): only backticks
are removed in the second step and the result neither starts nor ends
with a backtick. -/
theorem c1_clean_spec (s : List Char) :
    parse_llm_response s = .ok (clean s) ∧
    (∃ u v, s = u ++ rustTrim s ++ v ∧
      (∀ c ∈ u, isWhite c = true) ∧ (∀ c ∈ v, isWhite c = true)) ∧
    (∃ a b, rustTrim s = a ++ clean s ++ b ∧
      (∀ c ∈ a, c = tick) ∧ (∀ c ∈ b, c = tick)) ∧
    (∀ c, (clean s).head? = some c → c ≠ tick) ∧
    (∀ c, (clean s).getLast? = some c → c ≠ tick) := by
  refine ⟨rfl, ?_, ?_, ?_, ?_⟩
  · exact dropEnds_decomp isWhite s
  · obtain ⟨a, b, hab, ha, hb⟩ := dropEnds_decomp (fun c => c == tick) (rustTrim s)
    refine ⟨a, b, hab, ?_, ?_⟩
    · intro c hc
      exact eq_of_beq (ha c hc)
    · intro c hc
      exact eq_of_beq (hb c hc)
  · intro c hc
    have := dropEnds_head (fun c => c == tick) (rustTrim s) c hc
    simpa using this
  · intro c hc
    have := dropEnds_getLast (fun c => c == tick) (rustTrim s) c hc
    simpa using this

theorem c1_clean_spec_witness :
    parse_llm_response ((" ``ab`` ").data) = .ok (("ab").data) ∧
    Char.ofNat 97 ≠ tick :=
  ⟨(c1_clean_spec ((" ``ab`` ").data)).1,
   (c1_clean_spec ((" ``ab`` ").data)).2.2.2.1 (Char.ofNat 97) (by decide)⟩

/-! ## Lemmas about substring counting and rendering -/

theorem foldl_append_eq_flatten (f : TrackItem → List Char) :
    ∀ (l : List TrackItem) (init : List Char),
      l.foldl (fun acc it => acc ++ f it) init = init ++ (l.map f).flatten := by
  intro l
  induction l with
  | nil => intro init; simp
  | cons it rest ih =>
    intro init
    simp only [List.foldl_cons, List.map_cons, List.flatten_cons]
    rw [ih, List.append_assoc]

theorem render_playlist_text_eq_flatten (p : PlaylistResponse) :
    render_playlist_text p =
      (p.tracks.items.map (fun it => renderItem it.track)).flatten := by
  unfold render_playlist_text
  rw [foldl_append_eq_flatten]
  simp

theorem isPrefixOf_append_of_isPrefixOf (pat l b : List Char)
    (h : pat.isPrefixOf l = true) : pat.isPrefixOf (l ++ b) = true := by
  rw [ List.isPrefixOf_iff_prefix] at h ⊢
  exact h.trans (List.prefix_append l b)

theorem countOcc_append_le (pat a b : List Char) :
    countOcc pat a + countOcc pat b ≤ countOcc pat (a ++ b) := by
  induction a with
  | nil => simp [countOcc]
  | cons c rest ih =>
    have hrw : (c :: rest) ++ b = c :: (rest ++ b) := rfl
    rw [hrw]
    have hunf1 : countOcc pat (c :: rest) =
        (if pat.isPrefixOf (c :: rest) then 1 else 0) + countOcc pat rest := rfl
    have hunf2 : countOcc pat (c :: (rest ++ b)) =
        (if pat.isPrefixOf (c :: (rest ++ b)) then 1 else 0) + countOcc pat (rest ++ b) := rfl
    rw [hunf1, hunf2]
    have hmono : (if pat.isPrefixOf (c :: rest) then 1 else 0) ≤
        (if pat.isPrefixOf (c :: (rest ++ b)) then 1 else 0) := by
      by_cases hp : pat.isPrefixOf (c :: rest) = true
      · have h2 : pat.isPrefixOf (c :: (rest ++ b)) = true :=
          isPrefixOf_append_of_isPrefixOf pat (c :: rest) b hp
        rw [if_pos hp, if_pos h2]
      · rw [if_neg hp]
        exact Nat.zero_le _
    omega

theorem countOcc_inside_pos (pat : List Char) (hpat : pat ≠ []) :
    ∀ (x y : List Char), 1 ≤ countOcc pat (x ++ pat ++ y) := by
  intro x
  induction x with
  | nil =>
    intro y
    obtain ⟨c, rest, hc⟩ : ∃ c rest, pat = c :: rest := by
      cases pat with
      | nil => exact absurd rfl hpat
      | cons c rest => exact ⟨c, rest, rfl⟩
    subst hc
    have hrw : ([] : List Char) ++ (c :: rest) ++ y = c :: (rest ++ y) := by simp
    rw [hrw]
    have hpfx : (c :: rest).isPrefixOf (c :: (rest ++ y)) = true := by
      rw [ List.isPrefixOf_iff_prefix]
      exact List.prefix_append (c :: rest) y
    have hunf : countOcc (c :: rest) (c :: (rest ++ y)) =
        (if (c :: rest).isPrefixOf (c :: (rest ++ y)) then 1 else 0) +
          countOcc (c :: rest) (rest ++ y) := rfl
    rw [hunf, if_pos hpfx]
    omega
  | cons c x ih =>
    intro y
    have hrw : (c :: x) ++ pat ++ y = c :: (x ++ pat ++ y) := by simp
    rw [hrw]
    have hunf : countOcc pat (c :: (x ++ pat ++ y)) =
        (if pat.isPrefixOf (c :: (x ++ pat ++ y)) then 1 else 0) +
          countOcc pat (x ++ pat ++ y) := rfl
    rw [hunf]
    have h1 := ih y
    omega

theorem countOcc_renderItem_pos (t : Track) : 1 ≤ countOcc bySep (renderItem t) := by
  have h : renderItem t =
      t.name ++ bySep ++ ((List.intercalate commaSep (t.artists.map Artist.name)) ++ commaSep) := by
    unfold renderItem
    simp [List.append_assoc]
  rw [h]
  exact countOcc_inside_pos bySep (by decide) t.name _

theorem countOcc_flatten_ge (l : List TrackItem) :
    l.length ≤ countOcc bySep ((l.map (fun it => renderItem it.track)).flatten) := by
  induction l with
  | nil => simp [countOcc]
  | cons it rest ih =>
    simp only [List.map_cons, List.flatten_cons, List.length_cons]
    have h1 := countOcc_append_le bySep (renderItem it.track)
      ((rest.map (fun it => renderItem it.track)).flatten)
    have h2 := countOcc_renderItem_pos it.track
    omega

/-- C2: the claim predicts exactly `N` occurrences of `" by "` in the
rendered playlist text; for the one-item playlist whose track is
"Stand by Me" by "Ben E. King" the rendered text contains two
occurrences, not one. -/
theorem c2_counterexample :
    (PlaylistResponse.mk (PlaylistTracks.mk
      [⟨⟨("Stand by Me").data, [⟨("Ben E. King").data⟩], ("u1").data⟩⟩])).tracks.items.length = 1 ∧
    countOcc bySep (render_playlist_text (PlaylistResponse.mk (PlaylistTracks.mk
      [⟨⟨("Stand by Me").data, [⟨("Ben E. King").data⟩], ("u1").data⟩⟩]))) = 2 := by
  constructor
  · rfl
  · decide

/-- C2 (amended): the rendered playlist text is the in-order
concatenation of `"<track name> by <comma-joined artist names>, "`
over the items (so the empty playlist yields the empty string), and it
contains AT LEAST `N` occurrences of `" by "` — exact equality can fail
because track or artist names may themselves contain `" by "`. -/
theorem c2_render_spec (p : PlaylistResponse) :
    render_playlist_text p =
      (p.tracks.items.map (fun it => renderItem it.track)).flatten ∧
    p.tracks.items.length ≤ countOcc bySep (render_playlist_text p) ∧
    (p.tracks.items = [] → render_playlist_text p = []) := by
  refine ⟨render_playlist_text_eq_flatten p, ?_, ?_⟩
  · rw [render_playlist_text_eq_flatten p]
    exact countOcc_flatten_ge p.tracks.items
  · intro h
    unfold render_playlist_text
    rw [h]
    rfl

theorem c2_render_spec_witness :
    render_playlist_text (PlaylistResponse.mk (PlaylistTracks.mk [])) = [] :=
  (c2_render_spec (PlaylistResponse.mk (PlaylistTracks.mk []))).2.2 rfl

/-! ## C6: search_song result mapping -/

/-- C6: `search_song`'s result mapping: HTTP 200 with at least one
result item returns the first item's `uri` exactly; HTTP 200 with zero
items yields the no-match error; HTTP 404 yields the (equally treated)
no-match error; any other status yields an error carrying the status. -/
theorem c6_search_song_spec (status : Nat) (body : Except (List Char) SearchResponse) :
    (∀ sr t rest, body = .ok sr → sr.tracks.items = t :: rest →
      search_song (.ok 200 body) = .ok t.uri) ∧
    (∀ sr, body = .ok sr → sr.tracks.items = [] →
      search_song (.ok 200 body) = .error noResultMsg) ∧
    search_song (.ok 404 body) = .error noResultsMsg ∧
    (isNoMatchMsg noResultMsg = true ∧ isNoMatchMsg noResultsMsg = true) ∧
    (status ≠ 200 → status ≠ 404 →
      search_song (.ok status body) = .error (statusMsg status)) := by
  refine ⟨?_, ?_, ?_, ⟨by decide, by decide⟩, ?_⟩
  · intro sr t rest hb hi
    subst hb
    simp [search_song, hi]
  · intro sr hb hi
    subst hb
    simp [search_song, hi]
  · simp [search_song]
  · intro h200 h404
    simp [search_song, h200, h404]

theorem c6_search_song_spec_witness :
    search_song (.ok 200 (.ok ⟨⟨[⟨("Song3").data, [⟨("ArtistC").data⟩],
        ("spotify:track:999").data⟩]⟩⟩)) = .ok (("spotify:track:999").data) ∧
    search_song (.ok 500 (.ok ⟨⟨[]⟩⟩)) = .error (statusMsg 500) :=
  ⟨(c6_search_song_spec 500 (.ok ⟨⟨[⟨("Song3").data, [⟨("ArtistC").data⟩],
        ("spotify:track:999").data⟩]⟩⟩)).1 ⟨⟨[⟨("Song3").data, [⟨("ArtistC").data⟩],
        ("spotify:track:999").data⟩]⟩⟩ ⟨("Song3").data, [⟨("ArtistC").data⟩],
        ("spotify:track:999").data⟩ [] rfl rfl,
   (c6_search_song_spec 500 (.ok ⟨⟨[]⟩⟩)).2.2.2.2 (by decide) (by decide)⟩

/-! ## C8: ask_llm result mapping -/

/-- C8: for every successful (2xx), decodable LLM chat response, an
empty `choices` list yields the no-choices error, and otherwise the
first choice's `message.content` is returned unmodified. -/
theorem c8_ask_llm_spec (status : Nat) (r : LlmResponse)
    (hs : isSuccess status = true) :
    (r.choices = [] → ask_llm (.ok status (.ok r)) = .error noChoicesMsg) ∧
    (∀ c rest, r.choices = c :: rest →
      ask_llm (.ok status (.ok r)) = .ok c.message.content) := by
  constructor
  · intro h
    simp [ask_llm, hs, h]
  · intro c rest h
    simp [ask_llm, hs, h]

theorem c8_ask_llm_spec_witness :
    ask_llm (.ok 200 (.ok ⟨[⟨⟨("hello").data⟩⟩]⟩)) = .ok (("hello").data) ∧
    ask_llm (.ok 200 (.ok (⟨[]⟩ : LlmResponse))) = .error noChoicesMsg :=
  ⟨(c8_ask_llm_spec 200 ⟨[⟨⟨("hello").data⟩⟩]⟩ (by decide)).2 ⟨⟨("hello").data⟩⟩ [] rfl,
   (c8_ask_llm_spec 200 ⟨[]⟩ (by decide)).1 rfl⟩

/-! ## Lemmas about the resolution loop and the main workflow -/

theorem resolveLoop_fst (w : World) (songs : List Song) :
    (resolveLoop w songs).1 =
      songs.filterMap (fun s => (search_song (w.searchResp s)).toOption) := by
  induction songs with
  | nil => rfl
  | cons s rest ih =>
    cases h : search_song (w.searchResp s) with
    | ok uri => simp [resolveLoop, h, ih, Except.toOption, List.filterMap_cons]
    | error e => simp [resolveLoop, h, ih, Except.toOption, List.filterMap_cons]

theorem resolveLoop_snd_mem (w : World) (songs : List Song) (s : Song) (e : List Char)
    (hs : s ∈ songs) (he : search_song (w.searchResp s) = .error e) :
    searchErrLine s e ∈ (resolveLoop w songs).2 := by
  induction songs with
  | nil => cases hs
  | cons a rest ih =>
    rcases List.mem_cons.mp hs with h1 | h2
    · subst h1
      simp [resolveLoop, he]
    · cases h : search_song (w.searchResp a) with
      | ok uri =>
        simp only [resolveLoop, h]
        exact ih h2
      | error e2 =>
        simp only [resolveLoop, h]
        exact List.mem_cons_of_mem _ (ih h2)

theorem runMain_loop_branch (w : World) (content : List Char) (sr : LlmSongsResponse)
    (hllm : ask_llm w.llmResp = .ok content)
    (hdec : w.decodeSongs (clean content) = .ok sr) :
    (runMain w).urisToAdd = (resolveLoop w sr.songs).1 ∧
    (runMain w).printed = playlistPrinted w ++ (resolveLoop w sr.songs).2 ∧
    (runMain w).result = .ok () ∧
    (runMain w).addInvoked = !((resolveLoop w sr.songs).1.isEmpty) := by
  unfold runMain
  rw [hllm]
  simp only [parse_llm_response]
  rw [hdec]
  exact ⟨rfl, rfl, rfl, rfl⟩

/-! ## C10: the URI list is an order-preserving filter-map -/

/-- C10: the URI list passed to `add_to_playlist` is exactly the
sequence of URIs of the successfully resolved suggestions, in the order
the suggestions appear in the parsed LLM songs list (a filter-map of the
suggestion list). -/
theorem c10_uris_filterMap (w : World) (content : List Char) (sr : LlmSongsResponse)
    (hllm : ask_llm w.llmResp = .ok content)
    (hdec : w.decodeSongs (clean content) = .ok sr) :
    (runMain w).urisToAdd =
      sr.songs.filterMap (fun s => (search_song (w.searchResp s)).toOption) := by
  rw [(runMain_loop_branch w content sr hllm hdec).1, resolveLoop_fst]

/-! ## C5: only resolved suggestions are collected; failures are isolated -/

/-- C5: every URI in the batch-add list comes from a suggestion whose
search resolution succeeded; a failing suggestion has its error line
printed and the run still completes normally (the loop continues, the
batch is not aborted). -/
theorem c5_resolution_isolated (w : World) (content : List Char) (sr : LlmSongsResponse)
    (hllm : ask_llm w.llmResp = .ok content)
    (hdec : w.decodeSongs (clean content) = .ok sr) :
    (∀ u ∈ (runMain w).urisToAdd,
      ∃ s ∈ sr.songs, search_song (w.searchResp s) = .ok u) ∧
    (∀ s ∈ sr.songs, ∀ e, search_song (w.searchResp s) = .error e →
      searchErrLine s e ∈ (runMain w).printed) ∧
    (runMain w).result = .ok () := by
  obtain ⟨h1, h2, h3, h4⟩ := runMain_loop_branch w content sr hllm hdec
  refine ⟨?_, ?_, h3⟩
  · intro u hu
    rw [h1, resolveLoop_fst] at hu
    obtain ⟨s, hs, hf⟩ := List.mem_filterMap.mp hu
    refine ⟨s, hs, ?_⟩
    cases hss : search_song (w.searchResp s) with
    | ok v =>
      rw [hss] at hf
      simp [Except.toOption] at hf
      rw [hf]
    | error e =>
      rw [hss] at hf
      simp [Except.toOption] at hf
  · intro s hs e he
    rw [h2]
    exact List.mem_append.mpr (Or.inr (resolveLoop_snd_mem w sr.songs s e hs he))

/-! ## C7: empty URI list skips the batch-add -/

/-- C7: whenever the resolved-URI list is empty after the resolution
loop (and in every run that never reaches the loop), `add_to_playlist`
is not invoked. -/
theorem c7_add_skipped_when_empty (w : World)
    (h : (runMain w).urisToAdd = []) : (runMain w).addInvoked = false := by
  cases hllm : ask_llm w.llmResp with
  | error e => simp [runMain, hllm]
  | ok content =>
    cases hdec : w.decodeSongs (clean content) with
    | error m => simp [runMain, hllm, parse_llm_response, hdec]
    | ok sr =>
      obtain ⟨h1, _, _, h4⟩ := runMain_loop_branch w content sr hllm hdec
      rw [h4]
      rw [h1] at h
      rw [h]
      rfl

/-! ## C9: a failed playlist fetch is printed and the workflow continues -/

/-- C9: if the playlist fetch fails with any error, the error message is
printed and the workflow still continues: the prompt sent to the LLM is
built from the empty playlist listing instead of the run aborting at
that point. -/
theorem c9_playlist_failure_continues (w : World) (e : List Char)
    (h : get_playlist w.playlistResp = .error e) :
    (runMain w).output = [] ∧
    (runMain w).prompt = mkPrompt w.number [] ∧
    e ∈ (runMain w).printed := by
  have ho : playlistOutput w = [] := by simp [playlistOutput, h]
  have hp : playlistPrinted w = [e] := by simp [playlistPrinted, h]
  cases hllm : ask_llm w.llmResp with
  | error e2 => simp [runMain, hllm, ho, hp]
  | ok content =>
    cases hdec : w.decodeSongs (clean content) with
    | error m => simp [runMain, hllm, parse_llm_response, hdec, ho, hp]
    | ok sr => simp [runMain, hllm, parse_llm_response, hdec, ho, hp]

/-! ## C3: an unparseable cleaned response -/

/-- serde_json's message for a body that is not JSON at all. -/
def serdeErrMsg : List Char := ("expected value at line 1 column 1").data

/-- The raw LLM text used in the concrete worlds below. -/
def notJson : List Char := ("not json").data

/-- A run in which the LLM text does not decode as the songs schema. -/
def w3 : World :=
  ⟨1, .ok 200 (.ok ⟨⟨[]⟩⟩), .ok 200 (.ok ⟨[⟨⟨notJson⟩⟩]⟩),
   fun _ => .error serdeErrMsg, fun _ => .err (("unused").data)⟩

/-- C3: the claim predicts that after a parse failure the run proceeds
with zero suggestions; in the code the `?` on `serde_json::from_str`
propagates the decode error out of `main`, so the run aborts instead of
proceeding. -/
theorem c3_counterexample :
    w3.decodeSongs (clean notJson) = .error serdeErrMsg ∧
    (runMain w3).result = .error serdeErrMsg ∧
    (runMain w3).result ≠ .ok () := by
  refine ⟨rfl, rfl, ?_⟩
  intro h
  rw [show (runMain w3).result = Except.error serdeErrMsg from rfl] at h
  exact Except.noConfusion h

/-- C3 (amended): for every cleaned LLM response string that does not
decode as the songs schema, the decode error propagates out of `main`
through `?` — the run aborts with that error, zero suggestions are
resolved, and the batch-add is never invoked. -/
theorem c3_parse_error_propagates (w : World) (content m : List Char)
    (hllm : ask_llm w.llmResp = .ok content)
    (hdec : w.decodeSongs (clean content) = .error m) :
    (runMain w).result = .error m ∧
    (runMain w).urisToAdd = [] ∧
    (runMain w).addInvoked = false := by
  unfold runMain
  rw [hllm]
  simp only [parse_llm_response]
  rw [hdec]
  exact ⟨rfl, rfl, rfl⟩

theorem c3_parse_error_propagates_witness :
    (runMain w3).result = .error serdeErrMsg ∧
    (runMain w3).urisToAdd = [] ∧
    (runMain w3).addInvoked = false :=
  c3_parse_error_propagates w3 notJson serdeErrMsg (by rfl) (by rfl)

/-! ## Concrete worlds used as witnesses -/

/-- A suggestion that the search resolves. -/
def songOk : Song := ⟨("Song3").data, ("ArtistC").data⟩

/-- A suggestion for which the search returns zero items. -/
def songBad : Song := ⟨("Nope").data, ("NoArtist").data⟩

/-- The catalog track found for `songOk`. -/
def trackFound : Track :=
  ⟨("Song3").data, [⟨("ArtistC").data⟩], ("spotify:track:999").data⟩

/-- A run whose LLM response decodes to two suggestions, the first
resolving and the second missing from the catalog. -/
def wGood : World :=
  ⟨2,
   .ok 200 (.ok ⟨⟨[⟨⟨("Song1").data, [⟨("ArtistA").data⟩], ("u1").data⟩⟩]⟩⟩),
   .ok 200 (.ok ⟨[⟨⟨notJson⟩⟩]⟩),
   fun _ => .ok ⟨[songOk, songBad]⟩,
   fun s => if s = songOk then .ok 200 (.ok ⟨⟨[trackFound]⟩⟩)
            else .ok 200 (.ok ⟨⟨[]⟩⟩)⟩

/-- A run whose playlist fetch fails in transport and whose LLM response
decodes to zero suggestions. -/
def wEmpty : World :=
  ⟨0, .err (("net down").data), .ok 200 (.ok ⟨[⟨⟨notJson⟩⟩]⟩),
   fun _ => .ok ⟨[]⟩, fun _ => .err (("unused").data)⟩

theorem c10_uris_filterMap_witness :
    (runMain wGood).urisToAdd = [("spotify:track:999").data] := by
  have h := c10_uris_filterMap wGood notJson ⟨[songOk, songBad]⟩ (by rfl) (by rfl)
  rw [h]
  rfl

theorem c5_resolution_isolated_witness :
    searchErrLine songBad noResultMsg ∈ (runMain wGood).printed ∧
    (runMain wGood).result = .ok () := by
  have h := c5_resolution_isolated wGood notJson ⟨[songOk, songBad]⟩ (by rfl) (by rfl)
  refine ⟨h.2.1 songBad (by simp) noResultMsg ?_, h.2.2⟩
  show search_song (wGood.searchResp songBad) = .error noResultMsg
  rfl

theorem c7_add_skipped_when_empty_witness :
    (runMain wEmpty).addInvoked = false :=
  c7_add_skipped_when_empty wEmpty (by rfl)

theorem c9_playlist_failure_continues_witness :
    (runMain wEmpty).output = [] ∧
    (runMain wEmpty).prompt = mkPrompt 0 [] ∧
    ("net down").data ∈ (runMain wEmpty).printed := by
  have h := c9_playlist_failure_continues wEmpty (("net down").data) (by rfl)
  exact ⟨h.1, h.2.1, h.2.2⟩

/-! ## C4: the uri field of Track is mandatory -/

/-- The field list of a track JSON object carrying `name` and `artists`
but no `uri` key. -/
def trackNoUriFields : List ((List Char) × Json) :=
  [((("name").data), .str (("Song1").data)),
   ((("artists").data), .arr [.obj [((("name").data), .str (("ArtistA").data))]])]

/-- C4: the claim predicts that decoding a playlist response whose track
items lack the `uri` field still succeeds; in src/models.rs `uri` is a
plain `String` field, so serde rejects such a body with a
missing-field error. -/
theorem c4_counterexample :
    decodePlaylistResponse playlistNoUriJson =
      .error (missingFieldMsg (("uri").data)) ∧
    (decodePlaylistResponse playlistNoUriJson).isOk = false :=
  ⟨rfl, rfl⟩

/-- C4 (amended): in this variant `Track.uri` is mandatory, not
optional: decoding any track object whose field list has no `uri` key
never succeeds. -/
theorem c4_uri_required (fs : List ((List Char) × Json))
    (h : getField fs (("uri").data) = none) :
    ∀ t, decodeTrack (.obj fs) ≠ .ok t := by
  intro t hok
  have hred : decodeTrack (.obj fs) =
      (match fieldString fs (("name").data) with
      | .error e => .error e
      | .ok name =>
        match getField fs (("artists").data) with
        | none => .error (missingFieldMsg (("artists").data))
        | some v =>
          match asArr v with
          | .error e => .error e
          | .ok elems =>
            match decodeListWith decodeArtist elems with
            | .error e => .error e
            | .ok artists =>
              match fieldString fs (("uri").data) with
              | .error e => .error e
              | .ok uri => (.ok ⟨name, artists, uri⟩ : Except (List Char) Track)) := rfl
  rw [hred] at hok
  cases h1 : fieldString fs (("name").data) with
  | error e =>
    simp only [h1] at hok
    exact Except.noConfusion hok
  | ok name =>
    simp only [h1] at hok
    cases h2 : getField fs (("artists").data) with
    | none =>
      simp only [h2] at hok
      exact Except.noConfusion hok
    | some v =>
      simp only [h2] at hok
      cases h3 : asArr v with
      | error e =>
        simp only [h3] at hok
        exact Except.noConfusion hok
      | ok elems =>
        simp only [h3] at hok
        cases h4 : decodeListWith decodeArtist elems with
        | error e =>
          simp only [h4] at hok
          exact Except.noConfusion hok
        | ok artists =>
          simp only [h4] at hok
          have h5 : fieldString fs (("uri").data) =
              .error (missingFieldMsg (("uri").data)) := by
            unfold fieldString
            rw [h]
          simp only [h5] at hok
          exact Except.noConfusion hok

theorem c4_uri_required_witness :
    decodeTrack (.obj trackNoUriFields) ≠
      .ok ⟨("Song1").data, [⟨("ArtistA").data⟩], ("u").data⟩ :=
  c4_uri_required trackNoUriFields (by rfl) _
